import Mathlib

/-!
Verification of the summurai server (an Express relay that normalizes
document payloads, extracts PDF text, and summarizes it through a
chat-completion API).  The definitions below are a shallow embedding of
src/app.js.  The PDF text extraction (the pdf-parse library) and the HTTP
transport (fetch) are external collaborators and are passed in as explicit
function parameters, so that every handler is a pure Lean function from its
inputs, the extractor and the transport to a response together with the list
of chat-completion requests actually issued.
-/

namespace Summurai

/-- Bytes of a Node Buffer, each entry a value below 256. -/
abbrev Bytes := List Nat

/-- JSON values as produced by the express json body parser and by JSON.parse.
Numbers are modelled as exact rationals rather than IEEE doubles; the claims
below only exercise integral values, where the two agree. -/
inductive Json where
  | null
  | bool (b : Bool)
  | num (q : Rat)
  | str (s : String)
  | arr (elems : List Json)
  | obj (fields : List (String × Json))

/-- True when the corresponding JavaScript value is truthy.  JSON values that
are falsy in JavaScript are exactly null, false, 0 and the empty string. -/
def Json.truthy : Json → Bool
  | .null => false
  | .bool b => b
  | .num q => decide (q ≠ 0)
  | .str s => decide (s ≠ "")
  | .arr _ => true
  | .obj _ => true

/-- Discriminator used to state that a parsed value is a JSON array. -/
def Json.isArr : Json → Bool
  | .arr _ => true
  | _ => false

/-- Whitespace for the JavaScript String.prototype.trim: the ECMAScript
WhiteSpace and LineTerminator code points. -/
def isJsWhitespace (c : Char) : Bool :=
  decide (c.toNat = 9 ∨ c.toNat = 10 ∨ c.toNat = 11 ∨ c.toNat = 12 ∨
    c.toNat = 13 ∨ c.toNat = 32 ∨ c.toNat = 0xA0 ∨ c.toNat = 0x1680 ∨
    (0x2000 ≤ c.toNat ∧ c.toNat ≤ 0x200A) ∨ c.toNat = 0x2028 ∨
    c.toNat = 0x2029 ∨ c.toNat = 0x202F ∨ c.toNat = 0x205F ∨
    c.toNat = 0x3000 ∨ c.toNat = 0xFEFF)

/-- Trim on the character list underlying a string. -/
def jsTrimList (l : List Char) : List Char :=
  ((l.dropWhile isJsWhitespace).reverse.dropWhile isJsWhitespace).reverse

/-- JavaScript String.prototype.trim. -/
def jsTrim (s : String) : String := String.mk (jsTrimList s.data)

/-- Value of one character of the base64 alphabet.  As in the Node decoder,
both the standard and the url-safe alphabet are accepted. -/
def b64Val (c : Char) : Option Nat :=
  if 'A' ≤ c ∧ c ≤ 'Z' then some (c.toNat - 65)
  else if 'a' ≤ c ∧ c ≤ 'z' then some (c.toNat - 71)
  else if '0' ≤ c ∧ c ≤ '9' then some (c.toNat + 4)
  else if c = '+' ∨ c = '-' then some 62
  else if c = '/' ∨ c = '_' then some 63
  else none

/-- Sextet stream of a base64 string, following the Node decoder: characters
outside the alphabet are skipped and the first padding sign ends the input. -/
def b64Sextets : List Char → List Nat
  | [] => []
  | c :: cs =>
    if c = '=' then []
    else
      match b64Val c with
      | some v => v :: b64Sextets cs
      | none => b64Sextets cs

/-- Regroup sextets into bytes; a trailing group of two or three sextets
yields one or two bytes, a lone trailing sextet is dropped. -/
def b64Group : List Nat → Bytes
  | a :: b :: c :: d :: rest =>
    (a * 4 + b / 16) :: ((b % 16) * 16 + c / 4) :: ((c % 4) * 64 + d) :: b64Group rest
  | [a, b] => [a * 4 + b / 16]
  | [a, b, c] => [a * 4 + b / 16, (b % 16) * 16 + c / 4]
  | _ => []

/-- Buffer.from(s, "base64") of the Node runtime. -/
def base64Decode (s : String) : Bytes := b64Group (b64Sextets s.data)

/-- First four bytes of a PDF document: the ASCII codes of the percent sign
followed by the letters P, D, F. -/
def pdfMagic : Bytes := [37, 80, 68, 70]

/-- The double quote character, written by code point to keep string scanning
of this file simple. -/
def quoteChar : Char := Char.ofNat 34

/-- The backslash character, written by code point. -/
def bslashChar : Char := Char.ofNat 92

/-- The opening curly bracket, written by code point. -/
def lcurly : Char := Char.ofNat 123

/-- The closing curly bracket, written by code point. -/
def rcurly : Char := Char.ofNat 125

/-- Unicode replacement character, standing in for the lone UTF-16 surrogates
a JavaScript string may hold but a Lean string cannot. -/
def replacementChar : Char := Char.ofNat 0xFFFD

/-- JSON insignificant whitespace: space, tab, line feed, carriage return. -/
def isJsonWs (c : Char) : Bool :=
  decide (c.toNat = 32 ∨ c.toNat = 9 ∨ c.toNat = 10 ∨ c.toNat = 13)

/-- Drop JSON whitespace. -/
def skipWs (l : List Char) : List Char := l.dropWhile isJsonWs

/-- Numeric value of one decimal digit character. -/
def digitVal (c : Char) : Nat := c.toNat - 48

/-- Value of a run of decimal digit characters. -/
def digitsToNat (ds : List Char) : Nat := ds.foldl (fun a c => a * 10 + digitVal c) 0

/-- Longest leading run of decimal digits; fails when there is none. -/
def parseDigitRun (l : List Char) : Option (List Char × List Char) :=
  let ds := l.takeWhile Char.isDigit
  if ds.isEmpty then none else some (ds, l.drop ds.length)

/-- Integer part of a JSON number: a single zero, or a run starting with a
nonzero digit (JSON forbids leading zeros). -/
def parseIntPart (l : List Char) : Option (Nat × List Char) :=
  match l with
  | '0' :: rest => some (0, rest)
  | c :: _ =>
    if c.isDigit then
      match parseDigitRun l with
      | some (ds, rest) => some (digitsToNat ds, rest)
      | none => none
    else none
  | [] => none

/-- Exponent part of a JSON number, after the letter e: optional sign and a
digit run.  Returns whether the exponent is negative and its magnitude. -/
def parseExpPart (l : List Char) : Option (Bool × Nat × List Char) :=
  let (sg, l1) :=
    match l with
    | '-' :: r => (true, r)
    | '+' :: r => (false, r)
    | _ => (false, l)
  match parseDigitRun l1 with
  | some (ds, rest) => some (sg, digitsToNat ds, rest)
  | none => none

/-- Scale a rational by a decimal exponent. -/
def applyExp (q : Rat) (neg : Bool) (e : Nat) : Rat :=
  if neg then q / ((10 ^ e : Nat) : Rat) else q * ((10 ^ e : Nat) : Rat)

/-- A JSON number: optional minus, integer part, optional fraction, optional
exponent.  The value is exact; JSON.parse rounds to a double instead, which
agrees on all inputs the claims exercise. -/
def parseJsonNum (l : List Char) : Option (Rat × List Char) :=
  let (neg, l1) :=
    match l with
    | '-' :: r => (true, r)
    | _ => (false, l)
  match parseIntPart l1 with
  | none => none
  | some (ip, l2) =>
    match
      (match l2 with
       | '.' :: r =>
         match parseDigitRun r with
         | some (ds, rest) => some (digitsToNat ds, ds.length, rest)
         | none => none
       | _ => some (0, 0, l2) : Option (Nat × Nat × List Char)) with
    | none => none
    | some (fn, fd, l3) =>
      let base : Rat := (ip : Rat) + (fn : Rat) / ((10 ^ fd : Nat) : Rat)
      let signed : Rat := if neg then -base else base
      match l3 with
      | 'e' :: r =>
        match parseExpPart r with
        | some (sg, e, rest) => some (applyExp signed sg e, rest)
        | none => none
      | 'E' :: r =>
        match parseExpPart r with
        | some (sg, e, rest) => some (applyExp signed sg e, rest)
        | none => none
      | _ => some (signed, l3)

/-- Numeric value of one hexadecimal digit character. -/
def hexDigitVal (c : Char) : Option Nat :=
  if c.isDigit then some (c.toNat - 48)
  else if 'a' ≤ c ∧ c ≤ 'f' then some (c.toNat - 87)
  else if 'A' ≤ c ∧ c ≤ 'F' then some (c.toNat - 55)
  else none

/-- Four hexadecimal digits, as in a unicode escape. -/
def parse4Hex (l : List Char) : Option (Nat × List Char) :=
  match l with
  | a :: b :: c :: d :: rest =>
    match hexDigitVal a, hexDigitVal b, hexDigitVal c, hexDigitVal d with
    | some x, some y, some z, some w => some (((x * 16 + y) * 16 + z) * 16 + w, rest)
    | _, _, _, _ => none
  | _ => none

/-- Prepend a character to the parsed remainder of a string body. -/
def consRes (c : Char) : Option (List Char × List Char) → Option (List Char × List Char)
  | some (cs, r) => some (c :: cs, r)
  | none => none

/-- Body of a JSON string after the opening quote, up to and including the
closing quote.  Handles the JSON escapes and surrogate-pair unicode escapes;
a lone surrogate (legal for JSON.parse) becomes the replacement character,
the one point where a JavaScript string exceeds Lean strings.  Raw control
characters are rejected, as JSON requires. -/
def parseStrBody : Nat → List Char → Option (List Char × List Char)
  | 0, _ => none
  | _, [] => none
  | fuel + 1, c :: rest =>
    if c = quoteChar then some ([], rest)
    else if c = bslashChar then
      match rest with
      | [] => none
      | e :: r2 =>
        if e = quoteChar ∨ e = bslashChar ∨ e = '/' then consRes e (parseStrBody fuel r2)
        else if e = 'b' then consRes (Char.ofNat 8) (parseStrBody fuel r2)
        else if e = 'f' then consRes (Char.ofNat 12) (parseStrBody fuel r2)
        else if e = 'n' then consRes (Char.ofNat 10) (parseStrBody fuel r2)
        else if e = 'r' then consRes (Char.ofNat 13) (parseStrBody fuel r2)
        else if e = 't' then consRes (Char.ofNat 9) (parseStrBody fuel r2)
        else if e = 'u' then
          match parse4Hex r2 with
          | none => none
          | some (n, r3) =>
            if n < 0xD800 ∨ 0xDFFF < n then consRes (Char.ofNat n) (parseStrBody fuel r3)
            else if n ≤ 0xDBFF then
              match r3 with
              | a :: b :: r4 =>
                if a = bslashChar ∧ b = 'u' then
                  match parse4Hex r4 with
                  | some (m, r5) =>
                    if 0xDC00 ≤ m ∧ m ≤ 0xDFFF then
                      consRes (Char.ofNat (0x10000 + (n - 0xD800) * 0x400 + (m - 0xDC00)))
                        (parseStrBody fuel r5)
                    else consRes replacementChar (parseStrBody fuel r3)
                  | none => consRes replacementChar (parseStrBody fuel r3)
                else consRes replacementChar (parseStrBody fuel r3)
              | _ => consRes replacementChar (parseStrBody fuel r3)
            else consRes replacementChar (parseStrBody fuel r3)
        else none
    else if c.toNat < 32 then none
    else consRes c (parseStrBody fuel rest)

mutual

/-- One JSON value, by the grammar of JSON.parse.  The fuel only serves
termination; the entry point below supplies more than any input can use. -/
def parseVal : Nat → List Char → Option (Json × List Char)
  | 0, _ => none
  | fuel + 1, l =>
    match skipWs l with
    | [] => none
    | c :: rest =>
      if c = lcurly then
        match skipWs rest with
        | c2 :: r2 =>
          if c2 = rcurly then some (.obj [], r2) else parseMembers fuel (c2 :: r2) []
        | [] => none
      else if c = '[' then
        match skipWs rest with
        | ']' :: r2 => some (.arr [], r2)
        | l2 => parseElems fuel l2 []
      else if c = quoteChar then
        match parseStrBody (rest.length + 1) rest with
        | some (cs, r2) => some (.str (String.mk cs), r2)
        | none => none
      else if c = 't' then
        match rest with
        | 'r' :: 'u' :: 'e' :: r2 => some (.bool true, r2)
        | _ => none
      else if c = 'f' then
        match rest with
        | 'a' :: 'l' :: 's' :: 'e' :: r2 => some (.bool false, r2)
        | _ => none
      else if c = 'n' then
        match rest with
        | 'u' :: 'l' :: 'l' :: r2 => some (.null, r2)
        | _ => none
      else if c = '-' ∨ c.isDigit then
        match parseJsonNum (c :: rest) with
        | some (q, r2) => some (.num q, r2)
        | none => none
      else none

/-- Comma separated array elements up to the closing square bracket. -/
def parseElems : Nat → List Char → List Json → Option (Json × List Char)
  | 0, _, _ => none
  | fuel + 1, l, acc =>
    match parseVal fuel l with
    | none => none
    | some (v, r) =>
      match skipWs r with
      | ',' :: r2 => parseElems fuel r2 (acc ++ [v])
      | ']' :: r2 => some (.arr (acc ++ [v]), r2)
      | _ => none

/-- Comma separated object members up to the closing curly bracket. -/
def parseMembers : Nat → List Char → List (String × Json) → Option (Json × List Char)
  | 0, _, _ => none
  | fuel + 1, l, acc =>
    match skipWs l with
    | c :: r =>
      if c = quoteChar then
        match parseStrBody (r.length + 1) r with
        | none => none
        | some (cs, r2) =>
          match skipWs r2 with
          | ':' :: r3 =>
            match parseVal fuel r3 with
            | none => none
            | some (v, r4) =>
              match skipWs r4 with
              | ',' :: r5 => parseMembers fuel r5 (acc ++ [(String.mk cs, v)])
              | c5 :: r5 =>
                if c5 = rcurly then some (.obj (acc ++ [(String.mk cs, v)]), r5) else none
              | [] => none
          | _ => none
      else none
    | [] => none

end

/-- JSON.parse: one value surrounded by insignificant whitespace; anything
left over is a syntax error, reported as none. -/
def jsonParse (s : String) : Option Json :=
  match parseVal (2 * s.data.length + 4) s.data with
  | some (v, rest) => if skipWs rest = [] then some v else none
  | none => none

/-- Truncation toward zero of a rational, reduced modulo 256, as Buffer.from
applies to each array element (ToNumber followed by ToUint8). -/
def ratToByte (q : Rat) : Nat :=
  if 0 ≤ q.num then (q.num.toNat / q.den) % 256
  else (256 - ((-q.num).toNat / q.den) % 256) % 256

/-- Byte a JSON array element contributes under Buffer.from: numbers truncate
modulo 256, true is one, null is zero.  Strings and nested containers go
through ToNumber in the runtime; the claims never exercise those shapes and
they are modelled by the zero that non-numeric content yields. -/
def jsToByte : Json → Nat
  | .num q => ratToByte q
  | .bool b => if b then 1 else 0
  | _ => 0

/-- One role-tagged message of a chat-completion request. -/
structure Message where
  role : String
  content : String
deriving DecidableEq

/-- Body of the single fetch the summarizer issues.  The temperature is the
rational one fifth, the exact value of the literal 0.2 in the source. -/
structure ChatRequest where
  model : String
  messages : List Message
  max_tokens : Nat
  temperature : Rat
deriving DecidableEq

/-- Environment configuration: the OPENAI_API_KEY variable, none when the
variable is unset. -/
structure Config where
  apiKey : Option String

/-- The message object inside one completion choice. -/
structure ApiMessage where
  content : Option String

/-- One completion choice of the API response, carrying the structured
message field and the legacy flat text field, either possibly absent. -/
structure ApiChoice where
  message : Option ApiMessage
  choiceText : Option String

/-- What the transport returns: the ok flag and status of the HTTP response,
the raw body text read on failure, and the decoded json choices. -/
structure ApiResponse where
  ok : Bool
  status : Nat
  bodyText : String
  choices : Option (List ApiChoice)

/-- Fixed system instruction of the summarizer (line 89 of app.js). -/
def systemPrompt : String :=
  "You are a helpful summarization assistant. Produce a concise, clear summary."

/-- Fixed prefix of the user message (line 90 of app.js): the template places
the text after this instruction and a blank line. -/
def userPrefix : String :=
  "Summarize the following text concisely (1-3 short paragraphs or bullet points):\n\n"

/-- The sampling temperature 0.2 of the source, as an exact rational. -/
def temp02 : Rat := 2 / 10

/-- Default token budget of the summarizer. -/
def defaultMaxTokens : Nat := 200

/-- The request body built at lines 99 to 107 of app.js for a given text. -/
def buildRequest (text : String) (maxTokens : Nat) : ChatRequest :=
  { model := "gpt-4o-mini"
    messages := [⟨"system", systemPrompt⟩, ⟨"user", userPrefix ++ text⟩]
    max_tokens := maxTokens
    temperature := temp02 }

/-- The nullish-coalescing extraction of the assistant text at lines 118 to
121 of app.js: content of the message of the first choice, else the flat
text of the first choice, else the empty string. -/
def extractReply (resp : ApiResponse) : String :=
  match resp.choices with
  | none => ""
  | some [] => ""
  | some (c :: _) =>
    match c.message with
    | some m =>
      match m.content with
      | some s => s
      | none =>
        match c.choiceText with
        | some t => t
        | none => ""
    | none =>
      match c.choiceText with
      | some t => t
      | none => ""

/-- summarizeTextWithAPI of app.js.  The text is an Option because the call
sites may pass an undefined variable, which the falsiness guard absorbs.
The transport stands for fetch; the returned list collects every request
given to it, so that zero network calls is the empty list. -/
def summarizeTextWithAPI (cfg : Config) (transport : ChatRequest → ApiResponse)
    (text : Option String) (maxTokens : Nat) :
    Except String String × List ChatRequest :=
  match text with
  | none => (.ok "", [])
  | some t =>
    if t = "" then (.ok "", [])
    else if jsTrim t = "" then (.ok "", [])
    else
      match cfg.apiKey with
      | none => (.error "OPENAI_API_KEY environment variable is not set", [])
      | some k =>
        if k = "" then (.error "OPENAI_API_KEY environment variable is not set", [])
        else
          let req := buildRequest t maxTokens
          let resp := transport req
          if resp.ok then (.ok (jsTrim (extractReply resp)), [req])
          else
            (.error ("LLM API error: " ++ toString resp.status ++ " " ++ resp.bodyText), [req])

/-- The shapes arrayBufferToText of app.js accepts: a Node Buffer, an
ArrayBuffer, a JavaScript array, or anything else. -/
inductive BufferInput where
  | buffer (b : Bytes)
  | arrayBuffer (b : Bytes)
  | jsArray (elems : List Json)
  | other

/-- The canonical buffer arrayBufferToText builds before handing it to
pdf-parse: Buffers and ArrayBuffers pass through unchanged, arrays map
elementwise through the byte coercion, anything else is the error thrown
at line 40 of app.js. -/
def toCanonicalBuffer : BufferInput → Except String Bytes
  | .buffer b => .ok b
  | .arrayBuffer b => .ok b
  | .jsArray xs => .ok (xs.map jsToByte)
  | .other => .error "Unsupported input for arrayBufferToText"

/-- arrayBufferToText of app.js with the pdf-parse call abstracted as the
extract parameter (bytes in, text out or a failure). -/
def arrayBufferToText (extract : Bytes → Except String String) (i : BufferInput) :
    Except String String :=
  match toCanonicalBuffer i with
  | .ok b => extract b
  | .error e => .error e

/-- Outcome of the string branch of the buffer-to-text handler (lines 138 to
152 of app.js).  The pdfBuffer and jsonArray cases both route to extraction
but differ on extraction failure: the array case sits inside the try whose
catch falls back to the original string, the magic case propagates. -/
inductive TextOutcome where
  | pdfBuffer (buf : Bytes)
  | jsonArray (buf : Bytes)
  | plain (s : String)
  | undefinedText
deriving DecidableEq

/-- The sniffing cascade over a string payload: base64 decode and check the
four magic bytes; otherwise try JSON.parse, an array routing to extraction
and any other parse success leaving the text variable undefined; a parse
error falls back to the string itself as plain text. -/
def normalizeString (s : String) : TextOutcome :=
  let maybeBuf := base64Decode s
  if maybeBuf.take 4 = pdfMagic then .pdfBuffer maybeBuf
  else
    match jsonParse s with
    | some (.arr xs) => .jsonArray (xs.map jsToByte)
    | some _ => .undefinedText
    | none => .plain s

/-- An HTTP response of a handler: status code and json body. -/
structure HttpResponse where
  status : Nat
  body : Json

/-- Body of res.json at line 160 of app.js: the text key is dropped when the
text variable is undefined, as JSON.stringify drops undefined members. -/
def jsonTextSummary : Option String → String → Json
  | some t, summary => .obj [("text", .str t), ("summary", .str summary)]
  | none, summary => .obj [("summary", .str summary)]

/-- The 400 response of the buffer-to-text handler. -/
def bufferMissingResp : HttpResponse :=
  { status := 400, body := .obj [("error", .str "buffer required in body")] }

/-- A 500 response carrying an error message. -/
def serverError (e : String) : HttpResponse :=
  { status := 500, body := .obj [("error", .str e)] }

/-- The buffer-to-text route (lines 131 to 165 of app.js).  The body field
buffer arrives as a decoded JSON value or is absent; extract and transport
are the pdf-parse and fetch collaborators.  The second component lists the
chat-completion requests issued while serving the request. -/
def bufferToTextHandler (extract : Bytes → Except String String) (cfg : Config)
    (transport : ChatRequest → ApiResponse) (buffer : Option Json) :
    HttpResponse × List ChatRequest :=
  match buffer with
  | none => (bufferMissingResp, [])
  | some bv =>
    if bv.truthy then
      let textRes : Except String (Option String) :=
        match bv with
        | .str s =>
          match normalizeString s with
          | .pdfBuffer buf =>
            match extract buf with
            | .ok t => .ok (some t)
            | .error e => .error e
          | .jsonArray buf =>
            match extract buf with
            | .ok t => .ok (some t)
            | .error _ => .ok (some s)
          | .plain t => .ok (some t)
          | .undefinedText => .ok none
        | .arr xs =>
          match arrayBufferToText extract (.jsArray xs) with
          | .ok t => .ok (some t)
          | .error e => .error e
        | _ => .error "Unsupported input for arrayBufferToText"
      match textRes with
      | .error e => (serverError e, [])
      | .ok textO =>
        match summarizeTextWithAPI cfg transport textO defaultMaxTokens with
        | (.ok summary, reqs) =>
          ({ status := 200, body := jsonTextSummary textO summary }, reqs)
        | (.error e, reqs) => (serverError e, reqs)
    else (bufferMissingResp, [])

/-- A file uploaded through express-fileupload, carrying its data buffer. -/
structure UploadedFile where
  data : Bytes

/-- blobObjectToText of app.js restricted to a value decoded from a JSON
body: the file-object and Blob branches need a real Buffer or a method and
can never match a decoded JSON value, so only an array reaches extraction
and everything else is the unsupported-blob error of line 72. -/
def blobObjectToTextJson (extract : Bytes → Except String String) (j : Json) :
    Except String String :=
  match j with
  | .arr xs => arrayBufferToText extract (.jsArray xs)
  | _ => .error "Unsupported blob type"

/-- The 400 response of the blob-to-text handler. -/
def blobMissingResp : HttpResponse :=
  { status := 400, body := .obj [("error", .str "file (multipart) or blob (JSON) required")] }

/-- The blob-to-text route (lines 168 to 189 of app.js): a multipart upload
takes priority and returns early; otherwise the json blob field is used,
with the falsiness guard giving 400. -/
def blobToTextHandler (extract : Bytes → Except String String) (cfg : Config)
    (transport : ChatRequest → ApiResponse) (file : Option UploadedFile)
    (blob : Option Json) : HttpResponse × List ChatRequest :=
  match file with
  | some f =>
    match arrayBufferToText extract (.buffer f.data) with
    | .error e => (serverError e, [])
    | .ok extracted =>
      match summarizeTextWithAPI cfg transport (some extracted) defaultMaxTokens with
      | (.ok summary, reqs) =>
        ({ status := 200, body := .obj [("text", .str extracted), ("summary", .str summary)] },
         reqs)
      | (.error e, reqs) => (serverError e, reqs)
  | none =>
    match blob with
    | none => (blobMissingResp, [])
    | some bj =>
      if bj.truthy then
        match blobObjectToTextJson extract bj with
        | .error e => (serverError e, [])
        | .ok extracted =>
          match summarizeTextWithAPI cfg transport (some extracted) defaultMaxTokens with
          | (.ok summary, reqs) =>
            ({ status := 200,
               body := .obj [("text", .str extracted), ("summary", .str summary)] }, reqs)
          | (.error e, reqs) => (serverError e, reqs)
      else (blobMissingResp, [])

/-- The prompt the summarize route builds at line 197 of app.js: the context
prefixed with a blank line separator when it is supplied and truthy. -/
def effectivePrompt (context : Option String) (text : String) : String :=
  match context with
  | some c => if c = "" then text else c ++ "\n\n" ++ text
  | none => text

/-- The summarize route (lines 191 to 205 of app.js), for string body fields;
text and context are none when the field is absent. -/
def summarizeHandler (cfg : Config) (transport : ChatRequest → ApiResponse)
    (text : Option String) (context : Option String) :
    HttpResponse × List ChatRequest :=
  match text with
  | none => ({ status := 400, body := .obj [("error", .str "text required")] }, [])
  | some t =>
    if t = "" then ({ status := 400, body := .obj [("error", .str "text required")] }, [])
    else
      match summarizeTextWithAPI cfg transport (some (effectivePrompt context t))
          defaultMaxTokens with
      | (.ok summary, reqs) =>
        ({ status := 200, body := .obj [("summary", .str summary)] }, reqs)
      | (.error e, reqs) => (serverError e, reqs)

/-- A trimmed character list is empty exactly when every character is
whitespace. -/
theorem jsTrimList_eq_nil_iff (l : List Char) :
    jsTrimList l = [] ↔ ∀ c ∈ l, isJsWhitespace c := by
  unfold jsTrimList
  rw [List.reverse_eq_nil_iff, List.dropWhile_eq_nil_iff]
  constructor
  · intro h c hc
    have hsplit := List.takeWhile_append_dropWhile isJsWhitespace l
    rw [← hsplit] at hc
    rcases List.mem_append.mp hc with h1 | h1
    · exact List.mem_takeWhile_imp h1
    · exact h c (List.mem_reverse.mpr h1)
  · intro h c hc
    have hc2 : c ∈ l.dropWhile isJsWhitespace := List.mem_reverse.mp hc
    have hsplit := List.takeWhile_append_dropWhile isJsWhitespace l
    exact h c (by rw [← hsplit]; exact List.mem_append.mpr (Or.inr hc2))

/-- A trimmed string is empty exactly when the string is all whitespace. -/
theorem jsTrim_eq_empty_iff (s : String) :
    jsTrim s = "" ↔ ∀ c ∈ s.data, isJsWhitespace c := by
  unfold jsTrim
  constructor
  · intro h
    have : jsTrimList s.data = [] := congrArg String.data h
    exact (jsTrimList_eq_nil_iff s.data).mp this
  · intro h
    have : jsTrimList s.data = [] := (jsTrimList_eq_nil_iff s.data).mpr h
    exact String.ext this

/-- A string whose suffix does not trim away does not trim away. -/
theorem jsTrim_append_ne (a b : String) (h : jsTrim b ≠ "") : jsTrim (a ++ b) ≠ "" := by
  intro hab
  apply h
  rw [jsTrim_eq_empty_iff] at hab ⊢
  intro c hc
  exact hab c (by rw [String.data_append]; exact List.mem_append.mpr (Or.inr hc))

/-- A string that does not trim away is not empty. -/
theorem jsTrim_ne_empty_of_ne (t : String) (h : jsTrim t ≠ "") : t ≠ "" := by
  intro he
  exact h (by rw [he]; rfl)

/-- Extraction stub returning a fixed text for every buffer. -/
def stubExtract : Bytes → Except String String := fun _ => .ok "T"

/-- Extraction stub returning the empty text for every buffer. -/
def stubExtractEmpty : Bytes → Except String String := fun _ => .ok ""

/-- A successful API response whose first choice carries the message
content S. -/
def stubResp : ApiResponse := ⟨true, 200, "", some [⟨some ⟨some "S"⟩, none⟩]⟩

/-- Transport stub answering every request with the stub response. -/
def stubTransport : ChatRequest → ApiResponse := fun _ => stubResp

/-- Configuration with the credential set. -/
def cfgWithKey : Config := ⟨some "k"⟩

/-- Configuration with the credential unset. -/
def cfgNoKey : Config := ⟨none⟩

/-- C6: a byte sequence given to the normalizer (a Node Buffer or an
ArrayBuffer) becomes a canonical buffer whose bytes are the input,
unchanged. -/
theorem c6_buffer_identity (b : Bytes) :
    toCanonicalBuffer (.buffer b) = .ok b ∧ toCanonicalBuffer (.arrayBuffer b) = .ok b :=
  ⟨rfl, rfl⟩

/-- C2: the empty byte sequence normalizes without failure, and the pipeline
returns the empty extracted text whenever the extraction boundary maps the
empty buffer to empty text, as the spec fixes for that boundary. -/
theorem c2_empty_buffer (extract : Bytes → Except String String)
    (h : extract [] = .ok "") :
    toCanonicalBuffer (.buffer []) = .ok []
    ∧ arrayBufferToText extract (.buffer []) = .ok ""
    ∧ arrayBufferToText extract (.jsArray []) = .ok "" := by
  refine ⟨rfl, ?_, ?_⟩ <;> simpa [arrayBufferToText, toCanonicalBuffer] using h

/-- C2 witness: a concrete extraction stub mapping every buffer to empty
text satisfies the hypothesis, and the pipeline yields empty text. -/
theorem c2_empty_buffer_witness :
    stubExtractEmpty [] = .ok ""
    ∧ arrayBufferToText stubExtractEmpty (.buffer []) = .ok ""
    ∧ arrayBufferToText stubExtractEmpty (.jsArray []) = .ok "" :=
  ⟨rfl, (c2_empty_buffer stubExtractEmpty rfl).2.1, (c2_empty_buffer stubExtractEmpty rfl).2.2⟩

/-- C7: a string whose base64 decode starts with the four PDF magic bytes is
routed to extraction as the decoded canonical buffer, not as plain text. -/
theorem c7_pdf_magic_routing (s : String)
    (h : (base64Decode s).take 4 = pdfMagic) :
    normalizeString s = .pdfBuffer (base64Decode s) := by
  unfold normalizeString
  simp [h]

/-- C7 witness: the base64 encoding of the header bytes of a PDF-1.4 file
decodes to bytes starting with the magic and is routed to extraction. -/
theorem c7_pdf_magic_routing_witness :
    (base64Decode "JVBERi0xLjQ=").take 4 = pdfMagic
    ∧ normalizeString "JVBERi0xLjQ=" = .pdfBuffer (base64Decode "JVBERi0xLjQ=") :=
  ⟨by decide, c7_pdf_magic_routing "JVBERi0xLjQ=" (by decide)⟩

/-- C4: empty or whitespace-only text makes the summarization client return
the empty string at once, with no request given to the transport. -/
theorem c4_blank_text_no_call (cfg : Config) (transport : ChatRequest → ApiResponse)
    (maxTokens : Nat) (text : String) (h : text = "" ∨ jsTrim text = "") :
    summarizeTextWithAPI cfg transport (some text) maxTokens = (.ok "", []) := by
  unfold summarizeTextWithAPI
  rcases h with h | h
  · simp [h]
  · by_cases he : text = ""
    · simp [he]
    · simp [he, h]

/-- C4 witness: whitespace-only text with a configured key and a live
transport stub still answers empty with zero calls. -/
theorem c4_blank_text_no_call_witness :
    (("  \t" : String) = "" ∨ jsTrim "  \t" = "")
    ∧ summarizeTextWithAPI cfgWithKey stubTransport (some "  \t") 200 = (.ok "", []) :=
  ⟨Or.inr (by decide),
   c4_blank_text_no_call cfgWithKey stubTransport 200 "  \t" (Or.inr (by decide))⟩

/-- C5: with no credential configured (the variable unset or empty, both
falsy), non-blank text fails with the missing-credential message and no
request ever reaches the transport. -/
theorem c5_missing_credential (cfg : Config) (transport : ChatRequest → ApiResponse)
    (maxTokens : Nat) (text : String)
    (hkey : cfg.apiKey = none ∨ cfg.apiKey = some "")
    (ht : jsTrim text ≠ "") :
    summarizeTextWithAPI cfg transport (some text) maxTokens
      = (.error "OPENAI_API_KEY environment variable is not set", []) := by
  have hne : text ≠ "" := jsTrim_ne_empty_of_ne text ht
  unfold summarizeTextWithAPI
  rcases hkey with h | h <;> simp [hne, ht, h]

/-- C5 witness: concrete non-blank text with the credential unset. -/
theorem c5_missing_credential_witness :
    ((cfgNoKey.apiKey = none ∨ cfgNoKey.apiKey = some "") ∧ jsTrim "hi" ≠ "")
    ∧ summarizeTextWithAPI cfgNoKey stubTransport (some "hi") 200
      = (.error "OPENAI_API_KEY environment variable is not set", []) :=
  ⟨⟨Or.inl rfl, by decide⟩,
   c5_missing_credential cfgNoKey stubTransport 200 "hi" (Or.inl rfl) (by decide)⟩

/-- C10: a falsy buffer field (empty string, zero, false or null) draws the
same 400 response as an absent field, with no work done. -/
theorem c10_falsy_buffer (extract : Bytes → Except String String) (cfg : Config)
    (transport : ChatRequest → ApiResponse) (v : Json) (h : v.truthy = false) :
    bufferToTextHandler extract cfg transport (some v)
      = bufferToTextHandler extract cfg transport none
    ∧ bufferToTextHandler extract cfg transport none = (bufferMissingResp, []) := by
  constructor
  · unfold bufferToTextHandler
    simp [h]
  · rfl

/-- C10 witness: each of the four falsy JSON values is falsy and yields the
400 response of the absent field. -/
theorem c10_falsy_buffer_witness :
    (Json.truthy (.str "") = false
      ∧ bufferToTextHandler stubExtract cfgWithKey stubTransport (some (.str ""))
        = bufferToTextHandler stubExtract cfgWithKey stubTransport none)
    ∧ (Json.truthy (.num 0) = false
      ∧ bufferToTextHandler stubExtract cfgWithKey stubTransport (some (.num 0))
        = bufferToTextHandler stubExtract cfgWithKey stubTransport none)
    ∧ (Json.truthy (.bool false) = false
      ∧ bufferToTextHandler stubExtract cfgWithKey stubTransport (some (.bool false))
        = bufferToTextHandler stubExtract cfgWithKey stubTransport none)
    ∧ (Json.truthy .null = false
      ∧ bufferToTextHandler stubExtract cfgWithKey stubTransport (some .null)
        = bufferToTextHandler stubExtract cfgWithKey stubTransport none)
    ∧ bufferToTextHandler stubExtract cfgWithKey stubTransport none = (bufferMissingResp, []) :=
  ⟨⟨by decide, (c10_falsy_buffer stubExtract cfgWithKey stubTransport (.str "") (by decide)).1⟩,
   ⟨by decide, (c10_falsy_buffer stubExtract cfgWithKey stubTransport (.num 0) (by decide)).1⟩,
   ⟨by decide, (c10_falsy_buffer stubExtract cfgWithKey stubTransport (.bool false) (by decide)).1⟩,
   ⟨by decide, (c10_falsy_buffer stubExtract cfgWithKey stubTransport .null (by decide)).1⟩,
   (c10_falsy_buffer stubExtract cfgWithKey stubTransport .null (by decide)).2⟩

/-- True when the optional parse result holds a value that is not an
array. -/
def parsedNonArray (o : Option Json) : Bool :=
  match o with
  | some j => !j.isArr
  | none => false

/-- C1 counterexample: the string 42 satisfies the premises of the claim,
its decode lacks the magic and it is no JSON array, yet normalization does
not yield it as plain text: JSON.parse succeeds with a non-array, the text
variable stays undefined, and the handler response carries no text field. -/
theorem c1_counterexample :
    (base64Decode "42").take 4 ≠ pdfMagic
    ∧ parsedNonArray (jsonParse "42") = true
    ∧ normalizeString "42" ≠ TextOutcome.plain "42"
    ∧ bufferToTextHandler stubExtract cfgWithKey stubTransport (some (.str "42"))
      = ({ status := 200, body := .obj [("summary", .str "")] }, []) :=
  ⟨by decide, by rfl, by decide, by rfl⟩

/-- C1 (amended): for a non-empty string whose base64 decode does not start
with the magic bytes and which is not valid JSON at all (JSON.parse throws),
normalization yields it as plain text and the handler echoes it in the text
field. -/
theorem c1_plaintext_fallback (extract : Bytes → Except String String) (cfg : Config)
    (transport : ChatRequest → ApiResponse) (s summary : String)
    (hMagic : (base64Decode s).take 4 ≠ pdfMagic)
    (hJson : jsonParse s = none)
    (hS : s ≠ "")
    (hOk : (summarizeTextWithAPI cfg transport (some s) defaultMaxTokens).1 = .ok summary) :
    normalizeString s = .plain s
    ∧ bufferToTextHandler extract cfg transport (some (.str s))
      = ({ status := 200, body := .obj [("text", .str s), ("summary", .str summary)] },
         (summarizeTextWithAPI cfg transport (some s) defaultMaxTokens).2) := by
  have hn : normalizeString s = .plain s := by
    unfold normalizeString
    simp [hMagic, hJson]
  refine ⟨hn, ?_⟩
  rcases hp : summarizeTextWithAPI cfg transport (some s) defaultMaxTokens with ⟨r, reqs⟩
  rw [hp] at hOk
  simp only at hOk
  subst hOk
  unfold bufferToTextHandler
  simp [Json.truthy, hS, hn, hp, jsonTextSummary]

/-- C1 witness for the amended claim: the string hello is not base64-sniffed
as PDF, is not JSON, and comes back unchanged as the text field. -/
theorem c1_plaintext_fallback_witness :
    ((base64Decode "hello").take 4 ≠ pdfMagic
      ∧ jsonParse "hello" = none
      ∧ ("hello" : String) ≠ ""
      ∧ (summarizeTextWithAPI cfgWithKey stubTransport (some "hello") defaultMaxTokens).1
        = .ok "S")
    ∧ normalizeString "hello" = .plain "hello"
    ∧ bufferToTextHandler stubExtract cfgWithKey stubTransport (some (.str "hello"))
      = ({ status := 200, body := .obj [("text", .str "hello"), ("summary", .str "S")] },
         (summarizeTextWithAPI cfgWithKey stubTransport (some "hello") defaultMaxTokens).2) :=
  ⟨⟨by decide, by rfl, by decide, by rfl⟩,
   (c1_plaintext_fallback stubExtract cfgWithKey stubTransport "hello" "S"
      (by decide) (by rfl) (by decide) (by rfl)).1,
   (c1_plaintext_fallback stubExtract cfgWithKey stubTransport "hello" "S"
      (by decide) (by rfl) (by decide) (by rfl)).2⟩

/-- The requests a non-blank summarization call issues: exactly the one
request the source builds. -/
theorem summarize_requests (cfg : Config) (transport : ChatRequest → ApiResponse)
    (k t : String) (mt : Nat)
    (hkey : cfg.apiKey = some k) (hk : k ≠ "") (ht : jsTrim t ≠ "") :
    (summarizeTextWithAPI cfg transport (some t) mt).2 = [buildRequest t mt] := by
  have hne : t ≠ "" := jsTrim_ne_empty_of_ne t ht
  unfold summarizeTextWithAPI
  simp [hne, ht, hkey, hk]
  split <;> rfl

/-- C3 counterexample: with the credential set and text hi without context,
the single issued request exists but its user message is the fixed
instruction followed by a blank line and the effective prompt, not the
effective prompt hi itself. -/
theorem c3_counterexample :
    (summarizeHandler cfgWithKey stubTransport (some "hi") none).2
      = [buildRequest "hi" defaultMaxTokens]
    ∧ (buildRequest "hi" defaultMaxTokens).messages.map Message.content
      = [systemPrompt, userPrefix ++ "hi"]
    ∧ userPrefix ++ "hi" ≠ "hi" :=
  ⟨by rfl, by rfl, by decide⟩

/-- C3 (amended): for non-blank text, a configured key and any context, the
summarize route issues exactly one request; its user message is the fixed
summarization instruction, a blank line, then the effective prompt (context
plus blank line plus text when a truthy context is supplied, else the text);
the system message is the fixed instruction, the token budget is the default
200, and the temperature is exactly 0.2. -/
theorem c3_request_shape (cfg : Config) (transport : ChatRequest → ApiResponse)
    (k text : String) (context : Option String)
    (hkey : cfg.apiKey = some k) (hk : k ≠ "") (ht : jsTrim text ≠ "") :
    (summarizeHandler cfg transport (some text) context).2
      = [buildRequest (effectivePrompt context text) defaultMaxTokens]
    ∧ (buildRequest (effectivePrompt context text) defaultMaxTokens).messages
      = [⟨"system", systemPrompt⟩, ⟨"user", userPrefix ++ effectivePrompt context text⟩]
    ∧ (buildRequest (effectivePrompt context text) defaultMaxTokens).max_tokens = 200
    ∧ (buildRequest (effectivePrompt context text) defaultMaxTokens).temperature = temp02 := by
  have hne : text ≠ "" := jsTrim_ne_empty_of_ne text ht
  have hpne : jsTrim (effectivePrompt context text) ≠ "" := by
    unfold effectivePrompt
    rcases context with _ | c
    · exact ht
    · by_cases hc : c = ""
      · simp [hc, ht]
      · simp only [hc, if_false]
        exact jsTrim_append_ne (c ++ "\n\n") text ht
  refine ⟨?_, rfl, rfl, rfl⟩
  have hreq := summarize_requests cfg transport k (effectivePrompt context text)
    defaultMaxTokens hkey hk hpne
  rcases hps : summarizeTextWithAPI cfg transport (some (effectivePrompt context text))
      defaultMaxTokens with ⟨r, reqs⟩
  rw [hps] at hreq
  simp only at hreq
  unfold summarizeHandler
  simp only [hne, if_false]
  rw [hps]
  cases r <;> simpa using hreq

/-- C3 witness for the amended claim: concrete key, text and context. -/
theorem c3_request_shape_witness :
    (cfgWithKey.apiKey = some "k" ∧ ("k" : String) ≠ "" ∧ jsTrim "hello" ≠ "")
    ∧ (summarizeHandler cfgWithKey stubTransport (some "hello") (some "ctx")).2
      = [buildRequest (effectivePrompt (some "ctx") "hello") defaultMaxTokens]
    ∧ (buildRequest (effectivePrompt (some "ctx") "hello") defaultMaxTokens).messages
      = [⟨"system", systemPrompt⟩,
         ⟨"user", userPrefix ++ effectivePrompt (some "ctx") "hello"⟩] :=
  ⟨⟨rfl, by decide, by decide⟩,
   (c3_request_shape cfgWithKey stubTransport "k" "hello" (some "ctx")
      rfl (by decide) (by decide)).1,
   (c3_request_shape cfgWithKey stubTransport "k" "hello" (some "ctx")
      rfl (by decide) (by decide)).2.1⟩

/-- Following the words of the spec: the assistant reply of a successful
response is the structured message content of the first completion choice
when present, else the legacy flat text field, else the empty string. -/
def specReply (resp : ApiResponse) : String :=
  match resp.choices with
  | some (c :: _) =>
    match (match c.message with | some m => m.content | none => none) with
    | some s => s
    | none =>
      match c.choiceText with
      | some t => t
      | none => ""
  | _ => ""

/-- The nullish-coalescing chain of the source extracts exactly the reply
the spec describes. -/
theorem extractReply_eq_specReply (resp : ApiResponse) :
    extractReply resp = specReply resp := by
  obtain ⟨ok, status, bodyText, choices⟩ := resp
  unfold extractReply specReply
  rcases choices with _ | cs
  · rfl
  · rcases cs with _ | ⟨c, rest⟩
    · rfl
    · obtain ⟨m, ct⟩ := c
      rcases m with _ | ⟨mc⟩
      · rfl
      · rcases mc with _ | s
        · rfl
        · rfl

/-- C8: on an HTTP-success response the client returns the trimmed reply of
the first completion choice, preferring the structured message content over
the legacy flat text field, and the empty string when both are absent. -/
theorem c8_reply_extraction (k text : String) (mt : Nat) (resp : ApiResponse)
    (hk : k ≠ "") (ht : jsTrim text ≠ "") (hok : resp.ok = true) :
    (summarizeTextWithAPI ⟨some k⟩ (fun _ => resp) (some text) mt).1
      = .ok (jsTrim (specReply resp)) := by
  have hne : text ≠ "" := jsTrim_ne_empty_of_ne text ht
  unfold summarizeTextWithAPI
  simp [hne, ht, hk, hok, extractReply_eq_specReply]

/-- A successful response whose only choice carries neither the structured
message field nor the flat text field. -/
def respNoReply : ApiResponse := ⟨true, 200, "", some [⟨none, none⟩]⟩

/-- C8 witness: a success response with both reply fields absent yields the
empty string, not a failure. -/
theorem c8_reply_extraction_witness :
    (("k" : String) ≠ "" ∧ jsTrim "x" ≠ "" ∧ respNoReply.ok = true)
    ∧ specReply respNoReply = ""
    ∧ (summarizeTextWithAPI ⟨some "k"⟩ (fun _ => respNoReply) (some "x") 200).1
      = .ok (jsTrim (specReply respNoReply)) :=
  ⟨⟨by decide, by decide, rfl⟩, rfl,
   c8_reply_extraction "k" "x" 200 respNoReply (by decide) (by decide) rfl⟩

/-- C9: when a multipart file is uploaded, the blob-to-text handler serves
the file, returning its extracted text and summary, and the response is the
same whatever the json blob field holds. -/
theorem c9_multipart_priority (extract : Bytes → Except String String) (cfg : Config)
    (transport : ChatRequest → ApiResponse) (f : UploadedFile) (blob : Option Json)
    (t summary : String)
    (hE : extract f.data = .ok t)
    (hS : (summarizeTextWithAPI cfg transport (some t) defaultMaxTokens).1 = .ok summary) :
    blobToTextHandler extract cfg transport (some f) blob
      = ({ status := 200, body := .obj [("text", .str t), ("summary", .str summary)] },
         (summarizeTextWithAPI cfg transport (some t) defaultMaxTokens).2)
    ∧ blobToTextHandler extract cfg transport (some f) blob
      = blobToTextHandler extract cfg transport (some f) none := by
  constructor
  · rcases hp : summarizeTextWithAPI cfg transport (some t) defaultMaxTokens with ⟨r, reqs⟩
    rw [hp] at hS
    simp only at hS
    subst hS
    unfold blobToTextHandler arrayBufferToText toCanonicalBuffer
    simp [hE, hp]
  · rfl

/-- C9 witness: concrete uploaded file, a json blob field also present, and
stub collaborators. -/
theorem c9_multipart_priority_witness :
    (stubExtract [1, 2] = .ok "T"
      ∧ (summarizeTextWithAPI cfgWithKey stubTransport (some "T") defaultMaxTokens).1
        = .ok "S")
    ∧ blobToTextHandler stubExtract cfgWithKey stubTransport (some ⟨[1, 2]⟩)
        (some (.str "x"))
      = ({ status := 200, body := .obj [("text", .str "T"), ("summary", .str "S")] },
         (summarizeTextWithAPI cfgWithKey stubTransport (some "T") defaultMaxTokens).2)
    ∧ blobToTextHandler stubExtract cfgWithKey stubTransport (some ⟨[1, 2]⟩)
        (some (.str "x"))
      = blobToTextHandler stubExtract cfgWithKey stubTransport (some ⟨[1, 2]⟩) none :=
  ⟨⟨rfl, by rfl⟩,
   (c9_multipart_priority stubExtract cfgWithKey stubTransport ⟨[1, 2]⟩ (some (.str "x"))
      "T" "S" rfl (by rfl)).1,
   (c9_multipart_priority stubExtract cfgWithKey stubTransport ⟨[1, 2]⟩ (some (.str "x"))
      "T" "S" rfl (by rfl)).2⟩

end Summurai



